import Mathlib

/-!
Verification of the deployment documentation of the marvin repository
(docs/deployment.ipynb): the to-do tracker data model (`ToDo`, `ToDoState`,
`ToDoResponse`), the FastAPI request handler `run` that delegates to the
opaque `AIApplication` abstraction, the declarative gateway route table,
and the example JSON response shown in the notebook.

The AI-assistant abstraction (`AIApplication.__call__`) is external and
opaque, so it is modelled as a parameter: a function from the constructed
application and the update string to a response message and the updated
state.  Python datetimes are modelled by a plain record of calendar fields,
and pydantic parsing and serialization of the models are rendered over a
small JSON value type.
-/

namespace Marvin

/-- Models `datetime.datetime` restricted to the fields exercised by the
notebook (an ISO `YYYY-MM-DDTHH:MM:SS` timestamp). -/
structure DateTime where
  year : Nat
  month : Nat
  day : Nat
  hour : Nat
  minute : Nat
  second : Nat
deriving DecidableEq, Repr

/-- The `ToDo` pydantic model: `title: str`, `description: str`,
`due_date: datetime = None`, `done: bool = False`.  The `None` default makes
`due_date` optional in pydantic, so it is embedded as `Option DateTime`. -/
structure ToDo where
  title : String
  description : String
  due_date : Option DateTime
  done : Bool
deriving DecidableEq, Repr

/-- Constructing a `ToDo` from only the two required fields, taking the
declared defaults `due_date = None` and `done = False`. -/
def ToDo.mkDefault (title description : String) : ToDo :=
  ToDo.mk title description none false

/-- The `ToDoState` pydantic model: `todos: list[ToDo] = []`. -/
structure ToDoState where
  todos : List ToDo
deriving DecidableEq, Repr

/-- A freshly constructed `ToDoState()`: the `todos` field takes its
declared default, the empty list. -/
def ToDoState.init : ToDoState := ToDoState.mk []

/-- The `ToDoResponse` pydantic model: `content: str`, `state: ToDoState`. -/
structure ToDoResponse where
  content : String
  state : ToDoState
deriving DecidableEq, Repr

/-- `AIApplication(state=..., description=...)`: the object `run` constructs
before issuing the update. -/
structure AIApplication where
  state : ToDoState
  description : String
deriving DecidableEq, Repr

/-- The message object returned by calling an `AIApplication`; `run` reads
its `content` attribute. -/
structure AIMessage where
  content : String
deriving DecidableEq, Repr

/-- The opaque AI-assistant abstraction: calling `todo(update)` returns a
response message and leaves the application holding a possibly mutated
state.  Both outcomes of the single call are modelled as a pair. -/
abbrev AIAssistant : Type := AIApplication → String → AIMessage × ToDoState

/-- The fixed description string built inside `run`. -/
def todoDescription : String :=
  "A simple to-do tracker. Users will give instructions to add, remove, and update their to-dos."

/-- The handler `run(update, state)`: build the description, construct the
`AIApplication` from the given state and that description, issue the update
once, and return the response content together with the updated state. -/
def run (ai : AIAssistant) (update : String) (state : ToDoState) : ToDoResponse :=
  let description := todoDescription
  let todo := AIApplication.mk state description
  let r := ai todo update
  ToDoResponse.mk r.1.content r.2

/-- `run` when the request omits `state`: the parameter default
`state: ToDoState = ToDoState()` is used. -/
def runDefault (ai : AIAssistant) (update : String) : ToDoResponse :=
  run ai update ToDoState.init

/-- The HTTP methods used by the notebook. -/
inductive Method where
  | GET
deriving DecidableEq, Repr

/-- A request to the to-do service: method, path, the optional `update`
query parameter and the optional `state` payload. -/
structure Request where
  method : Method
  path : String
  update : Option String
  state : Option ToDoState
deriving Repr

/-- The to-do FastAPI app: its only registered route is `@app.get("/")` on
`run`.  A request is served when it is a GET on `"/"` carrying an `update`
parameter; an omitted `state` falls back to the declared default
`ToDoState()`. -/
def todoApp (ai : AIAssistant) (req : Request) : Option ToDoResponse :=
  if req.method = Method.GET ∧ req.path = "/" then
    req.update.map (fun u => run ai u (req.state.getD ToDoState.init))
  else
    none

/-- A JSON value, covering the shapes the notebook serializes. -/
inductive Json where
  | null : Json
  | str : String → Json
  | bool : Bool → Json
  | arr : List Json → Json
  | obj : List (String × Json) → Json

/-- Two-digit zero padding for ISO timestamps. -/
def pad2 (n : Nat) : String :=
  if n < 10 then "0" ++ toString n else toString n

/-- ISO rendering of a datetime, as pydantic serializes it. -/
def DateTime.toIso (d : DateTime) : String :=
  toString d.year ++ "-" ++ pad2 d.month ++ "-" ++ pad2 d.day ++ "T" ++
    pad2 d.hour ++ ":" ++ pad2 d.minute ++ ":" ++ pad2 d.second

/-- pydantic serialization of a `ToDo`. -/
def ToDo.toJson (t : ToDo) : Json :=
  Json.obj
    [("title", Json.str t.title),
     ("description", Json.str t.description),
     ("due_date", match t.due_date with
        | none => Json.null
        | some d => Json.str d.toIso),
     ("done", Json.bool t.done)]

/-- pydantic serialization of a `ToDoState`. -/
def ToDoState.toJson (s : ToDoState) : Json :=
  Json.obj [("todos", Json.arr (s.todos.map ToDo.toJson))]

/-- pydantic serialization of a `ToDoResponse`. -/
def ToDoResponse.toJson (r : ToDoResponse) : Json :=
  Json.obj [("content", Json.str r.content), ("state", r.state.toJson)]

/-- Key lookup in a JSON object. -/
def Json.getKey : Json → String → Option Json
  | Json.obj kvs, k => kvs.lookup k
  | _, _ => none

/-- A JSON string value. -/
def Json.asStr : Json → Option String
  | Json.str s => some s
  | _ => none

/-- A JSON boolean value. -/
def Json.asBool : Json → Option Bool
  | Json.bool b => some b
  | _ => none

/-- A JSON array value. -/
def Json.asArr : Json → Option (List Json)
  | Json.arr xs => some xs
  | _ => none

/-- Splits a character list on a separator character; the separator is
dropped and empty pieces are kept. -/
def splitOnChar (c : Char) : List Char → List (List Char)
  | [] => [[]]
  | x :: xs =>
    let r := splitOnChar c xs
    if x = c then [] :: r
    else
      match r with
      | [] => [[x]]
      | y :: ys => (x :: y) :: ys

/-- The numeric value of a nonempty all-digit character list. -/
def digitsToNat : List Char → Option Nat
  | [] => none
  | cs =>
    if cs.all Char.isDigit then
      some (cs.foldl (fun n c => 10 * n + (c.toNat - 48)) 0)
    else
      none

/-- pydantic parsing of an ISO `YYYY-MM-DDTHH:MM:SS` timestamp, the form
the notebook example uses. -/
def parseDateTime (s : String) : Option DateTime :=
  match splitOnChar 'T' s.toList with
  | [d, t] =>
    match splitOnChar '-' d, splitOnChar ':' t with
    | [y, mo, da], [h, mi, se] => do
      let y ← digitsToNat y
      let mo ← digitsToNat mo
      let da ← digitsToNat da
      let h ← digitsToNat h
      let mi ← digitsToNat mi
      let se ← digitsToNat se
      pure (DateTime.mk y mo da h mi se)
    | _, _ => none
  | _ => none

/-- pydantic validation of a `ToDo` from JSON: `title` and `description`
are required strings; `due_date` may be absent or null (its default) or an
ISO timestamp string; `done` may be absent (its default `False`) or a
boolean. -/
def parseToDo (j : Json) : Option ToDo := do
  let tj ← j.getKey "title"
  let title ← tj.asStr
  let dj ← j.getKey "description"
  let description ← dj.asStr
  let due ← match j.getKey "due_date" with
    | none => some Option.none
    | some Json.null => some Option.none
    | some (Json.str s) => (parseDateTime s).map Option.some
    | some _ => none
  let done ← match j.getKey "done" with
    | none => some false
    | some b => b.asBool
  pure (ToDo.mk title description due done)

/-- pydantic validation of a `ToDoState` from JSON: `todos` may be absent
(its default `[]`) or an array of `ToDo` objects. -/
def parseToDoState (j : Json) : Option ToDoState := do
  let todos ← match j.getKey "todos" with
    | none => some []
    | some a => do
      let xs ← a.asArr
      xs.mapM parseToDo
  pure (ToDoState.mk todos)

/-- pydantic validation of a `ToDoResponse` from JSON: `content` is a
required string and `state` a required `ToDoState` object. -/
def parseToDoResponse (j : Json) : Option ToDoResponse := do
  let cj ← j.getKey "content"
  let content ← cj.asStr
  let sj ← j.getKey "state"
  let state ← parseToDoState sj
  pure (ToDoResponse.mk content state)

/-- The example response printed at the end of the notebook, verbatim. -/
def exampleResponseJson : Json :=
  Json.obj
    [("content", Json.str "You have an appointment with Craig tomorrow at 9AM."),
     ("state", Json.obj
       [("todos", Json.arr
         [Json.obj
           [("title", Json.str "Appointment with Craig"),
            ("description", Json.str "Meeting with Craig tomorrow at 9AM"),
            ("due_date", Json.str "2023-07-19T09:00:00"),
            ("done", Json.bool false)]])])]

/-- The handlers registered by the declarative-gateway example:
`generate_fruits`, `generate_vegetables` and `Person.route()`. -/
inductive GatewayHandler where
  | generate_fruits
  | generate_vegetables
  | person_extract
deriving DecidableEq, Repr

/-- A FastAPI route table: the registered (path, handler) pairs in
registration order. -/
abbrev FastAPIRoutes : Type := List (String × GatewayHandler)

/-- `app.add_api_route(path, handler)`: appends one route to the table,
delegated entirely to the framework. -/
def add_api_route (app : FastAPIRoutes) (path : String) (h : GatewayHandler) : FastAPIRoutes :=
  app ++ [(path, h)]

/-- The gateway app of the first example: a fresh `FastAPI()` followed by
the three `add_api_route` calls of the notebook, in order. -/
def gatewayApp : FastAPIRoutes :=
  add_api_route
    (add_api_route
      (add_api_route [] "/generate_fruits" GatewayHandler.generate_fruits)
      "/generate_vegetables" GatewayHandler.generate_vegetables)
    "/person/extract" GatewayHandler.person_extract

/-- A sequence of HTTP calls to `run`: each request is an (update, state)
pair, served in order.  The server holds nothing between calls, so each
response is computed from its own request alone. -/
def serve (ai : AIAssistant) : List (String × ToDoState) → List ToDoResponse
  | [] => []
  | (u, s) :: rest => run ai u s :: serve ai rest

/-- A heap of `ToDoState` instances for the mutable-default question: cell
`i` holds the `todos` list owned by instance `i`. -/
structure PyHeap where
  cells : List (List ToDo)

/-- Evaluating `ToDoState()`: pydantic validates the `[]` field default into
a fresh copy for the new instance, so the new cell is an empty list of the
instance's own rather than a reference shared with earlier instances. -/
def PyHeap.newToDoState (h : PyHeap) : PyHeap × Nat :=
  (PyHeap.mk (h.cells ++ [[]]), h.cells.length)

/-- The `todos` list currently held by instance `i`. -/
def PyHeap.todosOf (h : PyHeap) (i : Nat) : List ToDo :=
  (h.cells[i]?).getD []

/-- `state.todos.append(t)` on instance `i`: mutates that cell in place. -/
def PyHeap.appendTodo (h : PyHeap) (i : Nat) (t : ToDo) : PyHeap :=
  PyHeap.mk (h.cells.set i (((h.cells[i]?).getD []) ++ [t]))

/-- The body of `run` over a fallible AI assistant: the handler wraps the
call in no try/except, so the embedding simply binds on the result. -/
def runE (E : Type) (ai : AIApplication → String → Except E (AIMessage × ToDoState))
    (update : String) (state : ToDoState) : Except E ToDoResponse :=
  match ai (AIApplication.mk state todoDescription) update with
  | Except.error e => Except.error e
  | Except.ok r => Except.ok (ToDoResponse.mk r.1.content r.2)

/-- C1: `run` constructs an `AIApplication` from the given state and the
fixed to-do-tracker description, invokes it once on the update string, and
returns a `ToDoResponse` whose content equals the AI response content
verbatim and whose state is the application state after that call. -/
theorem run_delegates_to_application (ai : AIAssistant) (update : String) (state : ToDoState) :
    run ai update state =
      ToDoResponse.mk (ai (AIApplication.mk state todoDescription) update).1.content
        (ai (AIApplication.mk state todoDescription) update).2 ∧
    todoDescription =
      "A simple to-do tracker. Users will give instructions to add, remove, and update their to-dos." :=
  ⟨rfl, rfl⟩

/-- C2: the to-do service serves exactly the requests that are GET on path
`"/"` with an `update` query parameter present, and every response
serializes to a JSON object of shape content-string plus state holding a
todos array. -/
theorem todo_service_single_route (ai : AIAssistant) (req : Request) (r : ToDoResponse) :
    ((todoApp ai req).isSome ↔
      (req.method = Method.GET ∧ req.path = "/" ∧ req.update.isSome = true)) ∧
    ToDoResponse.toJson r =
      Json.obj [("content", Json.str r.content),
        ("state", Json.obj [("todos", Json.arr (r.state.todos.map ToDo.toJson))])] := by
  constructor
  · rcases req with ⟨m, p, u, s⟩
    cases m
    cases u <;> simp [todoApp]
  · rfl

/-- C3: the data model is the three records `ToDo` (title, description, due
date, completion flag), `ToDoState` (an ordered list of todos) and
`ToDoResponse` (content text plus a state): each value is exactly its
fields, and every combination of field values is constructible with those
fields, so there is no invariant beyond the field types. -/
theorem data_model_fields (t : ToDo) (s : ToDoState) (r : ToDoResponse)
    (a b : String) (c : Option DateTime) (d : Bool) (l : List ToDo)
    (cs : String) (st : ToDoState) :
    t = ToDo.mk t.title t.description t.due_date t.done ∧
    s = ToDoState.mk s.todos ∧
    r = ToDoResponse.mk r.content r.state ∧
    (ToDo.mk a b c d).title = a ∧ (ToDo.mk a b c d).description = b ∧
    (ToDo.mk a b c d).due_date = c ∧ (ToDo.mk a b c d).done = d ∧
    (ToDoState.mk l).todos = l ∧
    (ToDoResponse.mk cs st).content = cs ∧ (ToDoResponse.mk cs st).state = st :=
  ⟨rfl, rfl, rfl, rfl, rfl, rfl, rfl, rfl, rfl, rfl⟩

/-- C4: the handler keeps no server-side state: over any sequence of calls
the i-th response is a function of the i-th request alone (and the fixed
assistant), so equal requests get equal responses at any positions of any
two call sequences, and no response depends on earlier calls. -/
theorem serve_stateless (ai : AIAssistant) (reqs reqs2 : List (String × ToDoState))
    (i j : Nat) :
    (serve ai reqs)[i]? = (reqs[i]?).map (fun p => run ai p.1 p.2) ∧
    (reqs[i]? = reqs2[j]? → (serve ai reqs)[i]? = (serve ai reqs2)[j]?) := by
  have key : ∀ (rs : List (String × ToDoState)) (k : Nat),
      (serve ai rs)[k]? = (rs[k]?).map (fun p => run ai p.1 p.2) := by
    intro rs
    induction rs with
    | nil => intro k; simp [serve]
    | cons hd tl ih =>
      intro k
      obtain ⟨u, s⟩ := hd
      cases k with
      | zero => simp [serve]
      | succ k => simpa [serve] using ih k
  refine ⟨key reqs i, fun hsame => ?_⟩
  rw [key reqs i, key reqs2 j, hsame]

/-- C5: `run` contains no error handling of its own: over a fallible
assistant it fails exactly when the assistant call fails, with the very
same error, and succeeds with the assistant result otherwise. -/
theorem run_propagates_errors (E : Type)
    (ai : AIApplication → String → Except E (AIMessage × ToDoState))
    (u : String) (s : ToDoState) :
    (∀ e : E, runE E ai u s = Except.error e ↔
      ai (AIApplication.mk s todoDescription) u = Except.error e) ∧
    (∀ r, ai (AIApplication.mk s todoDescription) u = Except.ok r →
      runE E ai u s = Except.ok (ToDoResponse.mk r.1.content r.2)) := by
  constructor
  · intro e
    unfold runE
    cases hcall : ai (AIApplication.mk s todoDescription) u <;> simp
  · intro r hcall
    unfold runE
    rw [hcall]

/-- C6: the example JSON response printed in the notebook conforms to the
schema of `ToDoResponse`: parsing it succeeds, yielding the shown content
and the single shown todo. -/
theorem example_json_matches_schema :
    parseToDoResponse exampleResponseJson =
      some (ToDoResponse.mk "You have an appointment with Craig tomorrow at 9AM."
        (ToDoState.mk [ToDo.mk "Appointment with Craig" "Meeting with Craig tomorrow at 9AM"
          (some (DateTime.mk 2023 7 19 9 0 0)) false])) := by
  rfl

/-- C7: the declarative-gateway example registers exactly three routes, in
order `/generate_fruits`, `/generate_vegetables` and `/person/extract`,
each through the framework route-registration call. -/
theorem gateway_registers_three_routes :
    gatewayApp = [("/generate_fruits", GatewayHandler.generate_fruits),
      ("/generate_vegetables", GatewayHandler.generate_vegetables),
      ("/person/extract", GatewayHandler.person_extract)] ∧
    gatewayApp.length = 3 :=
  ⟨rfl, rfl⟩

/-- C8: a request omitting `state` behaves exactly as one carrying a fresh
`ToDoState()`: the parameter default is `ToDoState()`, whose `todos`
defaults to the empty list. -/
theorem omitted_state_defaults_to_fresh (ai : AIAssistant) (u : String)
    (m : Method) (p : String) (uq : Option String) :
    runDefault ai u = run ai u (ToDoState.mk []) ∧
    ToDoState.init.todos = [] ∧
    todoApp ai (Request.mk m p uq none) =
      todoApp ai (Request.mk m p uq (some (ToDoState.mk []))) :=
  ⟨rfl, rfl, rfl⟩

/-- C9: constructing a `ToDo` from only a title and a description succeeds
and yields `due_date = none` and `done = false`; the two given fields are
kept verbatim and are exactly the fields without defaults. -/
theorem todo_two_field_construction (title description : String) :
    (ToDo.mkDefault title description).title = title ∧
    (ToDo.mkDefault title description).description = description ∧
    (ToDo.mkDefault title description).due_date = none ∧
    (ToDo.mkDefault title description).done = false :=
  ⟨rfl, rfl, rfl, rfl⟩

/-- C10: distinct `ToDoState` instances never share the mutable `[]`
default: appending to one instance's todos leaves every other instance
unchanged, and two successively created instances are distinct, each with
its own empty todos list. -/
theorem default_todos_not_shared (h : PyHeap) (i j : Nat) (t : ToDo) (hij : i ≠ j) :
    (h.appendTodo i t).todosOf j = h.todosOf j ∧
    (h.newToDoState).2 ≠ ((h.newToDoState).1.newToDoState).2 ∧
    ((h.newToDoState).1.newToDoState).1.todosOf (h.newToDoState).2 = [] ∧
    ((h.newToDoState).1.newToDoState).1.todosOf ((h.newToDoState).1.newToDoState).2 = [] := by
  refine ⟨?_, ?_, ?_, ?_⟩
  · unfold PyHeap.appendTodo PyHeap.todosOf
    rw [List.getElem?_set_ne hij]
  · simp [PyHeap.newToDoState]
  · simp only [PyHeap.newToDoState, PyHeap.todosOf]
    rw [List.getElem?_append_left (by simp), List.getElem?_concat_length]
    rfl
  · simp only [PyHeap.newToDoState, PyHeap.todosOf]
    rw [List.getElem?_concat_length]
    rfl

/-- Witness for C10 at a concrete heap of two instances: appending the
default-constructed todo to instance 0 leaves instance 1 untouched. -/
theorem default_todos_not_shared_witness :
    (PyHeap.appendTodo (PyHeap.mk [[], []]) 0 (ToDo.mkDefault "a" "b")).todosOf 1 =
        (PyHeap.mk [[], []]).todosOf 1 ∧
    ((PyHeap.mk [[], []]).newToDoState).2 ≠
        (((PyHeap.mk [[], []]).newToDoState).1.newToDoState).2 ∧
    (((PyHeap.mk [[], []]).newToDoState).1.newToDoState).1.todosOf
        ((PyHeap.mk [[], []]).newToDoState).2 = [] ∧
    (((PyHeap.mk [[], []]).newToDoState).1.newToDoState).1.todosOf
        (((PyHeap.mk [[], []]).newToDoState).1.newToDoState).2 = [] :=
  default_todos_not_shared (PyHeap.mk [[], []]) 0 1 (ToDo.mkDefault "a" "b") (by decide)

end Marvin
